import Mathlib

/-!
Verification model of the MImages-pdf pagination/rasterization pipeline
(`src/services/pdfService.ts`, `src/utils/imageProcessor.ts`).

Conventions of the embedding:
* A raster is a width, a height and a pixel function in RGBA order; channel
  values are naturals in `[0,255]`.
* JS `Uint8ClampedArray` stores assign rounded to the nearest integer with
  ties to even; `r * 0.75` is exact in binary64 (0.75 = 3/4), so the
  darkening of `processImageForPDF` is modelled as round-half-even of
  `3*c/4`.  `c * 0.8` is inexact in binary64 but for `c ≤ 255` the fraction
  of `4c/5` is never 1/2 and the `2^-53`-sized perturbation never crosses a
  rounding boundary, so the stored value equals round-to-nearest of `4c/5`,
  i.e. `(8c+5)/10`.
* the luminance test `0.299*r + 0.587*g + 0.114*b > 180` is modelled by the
  integer comparison `299r + 587g + 114b > 180000`.
* geometric quantities (mm page coordinates, image dimensions reported by
  `getImageProperties`) are exact rationals.
-/

/-- One RGBA pixel, channel values intended in `[0,255]`. -/
structure Pixel where
  r : Nat
  g : Nat
  b : Nat
  a : Nat
deriving DecidableEq, Repr

/-- A decoded pixel buffer: width, height and pixel lookup. -/
structure Raster where
  width : Nat
  height : Nat
  px : Nat → Nat → Pixel

/-- Thousandfold luminance: `1000 ×` the value `0.299R + 0.587G + 0.114B` of a pixel,
kept integral. -/
def lumNum (p : Pixel) : Nat :=
  299 * p.r + 587 * p.g + 114 * p.b

/-- The background threshold of both pixel transforms, scaled by 1000:
`luminance > 180` becomes `lumNum > 180000`. -/
def thresholdNum : Nat := 180000

/-- Round-half-even of `n / 4` on naturals: the value a JS
`Uint8ClampedArray` stores for the exact binary64 quantity `n/4`. -/
def rhe4 (n : Nat) : Nat :=
  let q := n / 4
  match n % 4 with
  | 0 => q
  | 1 => q
  | 2 => if q % 2 = 0 then q else q + 1
  | _ => q + 1

/-- The scan-mode darkening `data[i] = Math.max(0, c * 0.75)` followed by
the clamped-array store (`0.75` is exact in binary64, the product of a
byte by it as well, so only the final store rounds). -/
def darken34 (c : Nat) : Nat := rhe4 (3 * c)

/-- The transparency-utility darkening `data[i] = c * 0.8` followed by the
clamped-array store; for `c ≤ 255` this equals round-to-nearest of `4c/5`
(no ties occur since `4c/5` never has fraction `1/2`). -/
def darken45 (c : Nat) : Nat := (8 * c + 5) / 10

/-- Per-pixel map of the scan-mode cleaning pass of `processImageForPDF`
(src/services/pdfService.ts:38-48): background pixels (`luminance > 180`)
are forced to pure white, foreground pixels are darkened by `0.75`; the
alpha byte is never written. -/
def cleanPixel (p : Pixel) : Pixel :=
  if thresholdNum < lumNum p then
    { p with r := 255, g := 255, b := 255 }
  else
    { p with r := darken34 p.r, g := darken34 p.g, b := darken34 p.b }

/-- The whole-raster scan-mode cleaning pass: `cleanPixel` applied at every
coordinate, dimensions unchanged. -/
def cleanRaster (r : Raster) : Raster :=
  { r with px := fun x y => cleanPixel (r.px x y) }

/-- Per-pixel map of `removeBackground`
(src/utils/imageProcessor.ts:35-45): background pixels keep their colour
but get alpha `0`; foreground pixels are darkened by `0.8` and made fully
opaque. -/
def removeBgPixel (p : Pixel) : Pixel :=
  if thresholdNum < lumNum p then
    { p with a := 0 }
  else
    { r := darken45 p.r, g := darken45 p.g, b := darken45 p.b, a := 255 }

/-- The whole-raster transparency pass of `removeBackground`. -/
def removeBgRaster (r : Raster) : Raster :=
  { r with px := fun x y => removeBgPixel (r.px x y) }

/-- Placement of a raster on a physical page, in page coordinates (mm). -/
structure PlacementResult where
  x : ℚ
  y : ℚ
  width : ℚ
  height : ℚ
deriving DecidableEq, Repr

/-- Page width of `new jsPDF()` (A4 portrait, unit mm): 210. -/
def pageWidthMm : ℚ := 210

/-- Page height of `new jsPDF()` (A4 portrait, unit mm): 297. -/
def pageHeightMm : ℚ := 297

/-- The margin constant of `generatePDF` (src/services/pdfService.ts:96). -/
def marginMm : ℚ := 10

/-- The fit-to-page computation of `generatePDF`
(src/services/pdfService.ts:113-139): two-branch try-primary-then-correct
scaling of an `imgW × imgH` raster into the writable area
`(pageW - 2·margin) × (pageH - 2·margin)`, then centering on the page. -/
def fit (imgW imgH pageW pageH margin : ℚ) : PlacementResult :=
  let maxW := pageW - margin * 2
  let maxH := pageH - margin * 2
  let imgRatio := imgW / imgH
  let wh : ℚ × ℚ :=
    if 1 < imgRatio then
      let fw := maxW
      let fh := maxW / imgRatio
      if maxH < fh then (maxH * imgRatio, maxH) else (fw, fh)
    else
      let fh := maxH
      let fw := maxH * imgRatio
      if maxW < fw then (maxW, maxW / imgRatio) else (fw, fh)
  { x := (pageW - wh.1) / 2, y := (pageH - wh.2) / 2,
    width := wh.1, height := wh.2 }

/-- The pure-white opaque pixel a fresh canvas chunk is filled with. -/
def whitePixel : Pixel := ⟨255, 255, 255, 255⟩

/-- Modelled from the spec: the `LongRasterSlicer` chunk height
`chunkH = floor(W / targetAspect)`.  The slicer exists only in the
pdfService variants described by the spec; no slicing code is present
under `src/`. -/
def chunkHeight (w : Nat) (targetAspect : ℚ) : Nat :=
  (⌊(w : ℚ) / targetAspect⌋).toNat

/-- Modelled from the spec: chunk `i` of the `LongRasterSlicer` — a
`W × chunkH` canvas filled white, with source rows
`[i·chunkH, min(H, (i+1)·chunkH))` blitted top-aligned at `(0,0)`. -/
def sliceChunk (r : Raster) (chunkH i : Nat) : Raster where
  width := r.width
  height := chunkH
  px := fun x y =>
    if x < r.width ∧ y < chunkH ∧ i * chunkH + y < r.height then
      r.px x (i * chunkH + y)
    else whitePixel

/-- Modelled from the spec: `LongRasterSlicer.slice`.  If
`H ≤ chunkH + 10` the raster is returned unsliced; otherwise
`ceil(H / chunkH)` chunks are produced in top-to-bottom source order. -/
def sliceRaster (r : Raster) (targetAspect : ℚ) : List Raster :=
  let chunkH := chunkHeight r.width targetAspect
  if r.height ≤ chunkH + 10 then [r]
  else
    (List.range ((r.height + chunkH - 1) / chunkH)).map (sliceChunk r chunkH)

/-- Kind tag `EditorPage.type` (src/types.ts). -/
inductive PageType where
  | IMAGE
  | TEXT
deriving DecidableEq, Repr

/-- Page record `EditorPage` (src/types.ts): the content string is a URL for
`IMAGE` pages and raw HTML for `TEXT` pages. -/
structure EditorPage where
  pageType : PageType
  content : String
deriving DecidableEq, Repr

/-- Options record `GeneratePDFOptions` (src/services/pdfService.ts:5-8). -/
structure GeneratePDFOptions where
  includePageNumbers : Bool
  enableScanMode : Bool
deriving DecidableEq, Repr

/-- The hidden container `renderHtmlToImage` builds
(src/services/pdfService.ts:60-72): fixed width `794px`, `minHeight`
`1123px`, uniform `padding` `48px`, white background, holding the page's
HTML. -/
structure RenderContainer where
  widthPx : Nat
  minHeightPx : Nat
  paddingPx : Nat
  background : String
  innerHtml : String
deriving DecidableEq, Repr

/-- The `html2canvas` call `renderHtmlToImage` makes
(src/services/pdfService.ts:76-80): scale 2, CORS enabled, over the
container above. -/
structure CanvasCapture where
  scale : Nat
  useCORS : Bool
  container : RenderContainer
deriving DecidableEq, Repr

/-- The container and capture settings of `renderHtmlToImage` for a given
HTML string, read off src/services/pdfService.ts:59-85. -/
def renderHtmlCapture (html : String) : CanvasCapture :=
  { scale := 2
    useCORS := true
    container :=
      { widthPx := 794, minHeightPx := 1123, paddingPx := 48
        background := "white", innerHtml := html } }

/-- The browser-side capabilities the pipeline depends on, modelled as an
explicit environment: image decoding (`new Image()` + `onload`/`onerror`),
2d-context acquisition, canvas `toDataURL` encoders, the `html2canvas`
capture, `getImageProperties`, and `getTextWidth`. -/
structure Env where
  load : String → Option Raster
  ctxOk : Bool
  encodeJpeg : Raster → String
  encodePng : Raster → String
  capture : CanvasCapture → String
  props : String → ℚ × ℚ
  textWidth : String → ℚ

/-- Model of `processImageForPDF` (src/services/pdfService.ts:10-57): identity when
scan mode is off; otherwise decode, clean every pixel, re-encode — falling
back to the original url when decoding fails (`img.onerror`) or no 2d
context is available. -/
def processImageForPDF (env : Env) (url : String) (enableScanMode : Bool) :
    String :=
  if enableScanMode = false then url
  else
    match env.load url with
    | none => url
    | some img =>
      if env.ctxOk = false then url
      else env.encodeJpeg (cleanRaster img)

/-- Model of `removeBackground` (src/utils/imageProcessor.ts:5-56): decode, zero the
alpha of background pixels, re-encode as PNG; decoding failure rejects
with a load error, a missing 2d context resolves with the original url. -/
def removeBackground (env : Env) (url : String) : Except String String :=
  match env.load url with
  | none => Except.error "Failed to load image for processing"
  | some img =>
    if env.ctxOk = false then Except.ok url
    else Except.ok (env.encodePng (removeBgRaster img))

/-- Model of `renderHtmlToImage` (src/services/pdfService.ts:59-85): capture the
container holding the HTML. -/
def renderHtmlToImage (env : Env) (html : String) : String :=
  env.capture (renderHtmlCapture html)

/-- The per-page processed image url of `generatePDF`
(src/services/pdfService.ts:107-113). -/
def processPage (env : Env) (opts : GeneratePDFOptions) (p : EditorPage) :
    String :=
  match p.pageType with
  | PageType.IMAGE => processImageForPDF env p.content opts.enableScanMode
  | PageType.TEXT => renderHtmlToImage env p.content

/-- One call the `generatePDF` loop makes on the `jsPDF` encoder. -/
inductive DocEvent where
  | addPage
  | drawImage (url : String) (x y width height : ℚ)
  | drawText (label : String) (x y : ℚ)
  | save (filename : String)
deriving DecidableEq, Repr

/-- The footer label of src/services/pdfService.ts:147:
`Page ${i + 1} of ${pages.length}` with `i` the input page index. -/
def footerLabel (i total : Nat) : String :=
  "Page " ++ toString (i + 1) ++ " of " ++ toString total

/-- One iteration of the `generatePDF` loop
(src/services/pdfService.ts:102-151) at input index `i`: `addPage` for
every index but 0, then — unless the processed url is empty
(`if (!processedImageUrl) continue`) — the fitted `addImage` and, when
page numbers are on, the centered footer text. -/
def emitPage (env : Env) (opts : GeneratePDFOptions) (total i : Nat)
    (p : EditorPage) : List DocEvent :=
  (if 0 < i then [DocEvent.addPage] else []) ++
  (let u := processPage env opts p
   if u = "" then []
   else
     let pr := env.props u
     let pl := fit pr.1 pr.2 pageWidthMm pageHeightMm marginMm
     [DocEvent.drawImage u pl.x pl.y pl.width pl.height] ++
     (if opts.includePageNumbers then
        let label := footerLabel i total
        [DocEvent.drawText label ((pageWidthMm - env.textWidth label) / 2)
          (pageHeightMm - 10)]
      else []))

/-- The `generatePDF` loop over the remaining pages, carrying the input
index. -/
def runPages (env : Env) (opts : GeneratePDFOptions) (total : Nat) :
    Nat → List EditorPage → List DocEvent
  | _, [] => []
  | i, p :: rest =>
    emitPage env opts total i p ++ runPages env opts total (i + 1) rest

/-- Model of `generatePDF` (src/services/pdfService.ts:90-154) as the sequence of
encoder calls it performs: the per-page loop followed by the single
`doc.save`. -/
def generatePDF (env : Env) (pages : List EditorPage) (filename : String)
    (opts : GeneratePDFOptions) : List DocEvent :=
  runPages env opts pages.length 0 pages ++ [DocEvent.save filename]

/-- The urls of the `drawImage` events, in emission order. -/
def imageUrls (evs : List DocEvent) : List String :=
  evs.filterMap fun e =>
    match e with
    | DocEvent.drawImage u _ _ _ _ => some u
    | _ => none

/-- The number of `addPage` events. -/
def countAddPage (evs : List DocEvent) : Nat :=
  evs.countP fun e =>
    match e with
    | DocEvent.addPage => true
    | _ => false

/-- The labels of the `drawText` events, in emission order. -/
def textLabels (evs : List DocEvent) : List String :=
  evs.filterMap fun e =>
    match e with
    | DocEvent.drawText l _ _ => some l
    | _ => none

/-- The number of `save` events. -/
def countSave (evs : List DocEvent) : Nat :=
  evs.countP fun e =>
    match e with
    | DocEvent.save _ => true
    | _ => false

/-- A concrete environment for closed evaluations: every decode fails,
every encode yields a fixed data url, reported image dimensions are 1×1. -/
def env0 : Env :=
  { load := fun _ => none
    ctxOk := true
    encodeJpeg := fun _ => "data:image/jpeg;base64,x"
    encodePng := fun _ => "data:image/png;base64,x"
    capture := fun c => "data:text/render," ++ c.container.innerHtml
    props := fun _ => (1, 1)
    textWidth := fun _ => 0 }


/-- The processed url `generatePDF` would draw for a page, `none` when the
`if (!processedImageUrl) continue` guard skips it. -/
def emittedUrl (env : Env) (opts : GeneratePDFOptions) (p : EditorPage) :
    Option String :=
  let u := processPage env opts p
  if u = "" then none else some u

/-- The footer labels `generatePDF` attaches when page numbering is on:
one label per input page that is not skipped, indexed by the input page
position. -/
def expectedLabels (env : Env) (opts : GeneratePDFOptions) (total : Nat) :
    Nat → List EditorPage → List String
  | _, [] => []
  | i, p :: rest =>
    (if emittedUrl env opts p = none then [] else [footerLabel i total]) ++
      expectedLabels env opts total (i + 1) rest

/-- A uniform mid-grey raster: every pixel `(100,100,100,255)`, luminance
100, classified foreground. -/
def greyRaster : Raster := ⟨1, 1, fun _ _ => ⟨100, 100, 100, 255⟩⟩

/-- A pure-white 1×1 raster. -/
def whiteRaster : Raster := ⟨1, 1, fun _ _ => whitePixel⟩

/-- An environment whose decoded images report dimensions `100 × 0`:
the degenerate zero-height raster of C5. -/
def envZeroH : Env :=
  { env0 with props := fun _ => (100, 0) }

/-- A 2-pixel-wide, 20-pixel-tall raster, sliced in the witness below. -/
def longRaster : Raster := ⟨2, 20, fun _ _ => whitePixel⟩

/-- The full slicing contract of the spec's `LongRasterSlicer`, for a
raster `r` and target aspect `a` (write `c = chunkHeight r.width a`):
under the tolerance the raster comes back unsliced; above it the result is
`ceil(H/c)` chunks in top-to-bottom order, each `W × c`, white-filled with
the source rows `[i·c, min(H,(i+1)·c))` blitted at `(0,0)`, and every
source row lands in exactly one (chunk, offset) pair — no gaps, no
overlaps. -/
def SliceSpec (r : Raster) (a : ℚ) : Prop :=
  (r.height ≤ chunkHeight r.width a + 10 → sliceRaster r a = [r]) ∧
  (chunkHeight r.width a + 10 < r.height →
    sliceRaster r a =
      (List.range ((r.height + chunkHeight r.width a - 1) /
        chunkHeight r.width a)).map (sliceChunk r (chunkHeight r.width a)) ∧
    (sliceRaster r a).length =
      (r.height + chunkHeight r.width a - 1) / chunkHeight r.width a ∧
    (∀ i, (sliceChunk r (chunkHeight r.width a) i).width = r.width ∧
      (sliceChunk r (chunkHeight r.width a) i).height =
        chunkHeight r.width a) ∧
    (∀ i x y, x < r.width → y < chunkHeight r.width a →
      (sliceChunk r (chunkHeight r.width a) i).px x y =
        if i * chunkHeight r.width a + y < r.height then
          r.px x (i * chunkHeight r.width a + y)
        else whitePixel) ∧
    (∀ row, row < r.height →
      ∃! iy : Nat × Nat,
        iy.1 < (r.height + chunkHeight r.width a - 1) /
          chunkHeight r.width a ∧
        iy.2 < chunkHeight r.width a ∧
        iy.1 * chunkHeight r.width a + iy.2 = row))

/-- C2 (counterexample): the scan-mode cleaning map is not idempotent — on
the uniform grey raster one pass darkens `100 ↦ 75`, a second pass darkens
again `75 ↦ 56`, so `clean(clean(r)) ≠ clean(r)`. -/
theorem cleanRaster_not_idempotent :
    cleanRaster (cleanRaster greyRaster) ≠ cleanRaster greyRaster := by
  intro h
  have h0 : (cleanRaster (cleanRaster greyRaster)).px 0 0 =
      (cleanRaster greyRaster).px 0 0 := by rw [h]
  exact absurd h0 (by decide)

/-- C2 (amended): the cleaning map is idempotent on rasters whose pixels
are all classified background (luminance above the threshold): every such
pixel is forced to pure white, and white is a fixed point of the map.  (On
foreground pixels a second application darkens by `0.75` again, so raster
idempotence fails in general — see the counterexample.) -/
theorem cleanRaster_idempotent_on_background (r : Raster)
    (hb : ∀ x y, thresholdNum < lumNum (r.px x y)) :
    cleanRaster (cleanRaster r) = cleanRaster r := by
  have hpx : ∀ x y, cleanPixel (cleanPixel (r.px x y)) = cleanPixel (r.px x y) := by
    intro x y
    have h1 : cleanPixel (r.px x y) =
        { r.px x y with r := 255, g := 255, b := 255 } := by
      unfold cleanPixel
      rw [if_pos (hb x y)]
    rw [h1]
    unfold cleanPixel
    rw [if_pos (by norm_num [lumNum, thresholdNum])]
  simp only [cleanRaster]
  congr 1
  funext x y
  exact hpx x y

/-- C2 (witness): the idempotence theorem applied to the all-white raster. -/
theorem cleanRaster_idempotent_on_background_witness :
    cleanRaster (cleanRaster whiteRaster) = cleanRaster whiteRaster :=
  cleanRaster_idempotent_on_background whiteRaster
    (fun _ _ => (by decide : thresholdNum < lumNum whitePixel))

/-- C9: every output pixel of `removeBackground` has alpha exactly `0`
(when the source pixel's luminance exceeds the threshold) or exactly `255`
(otherwise); no intermediate alpha value appears. -/
theorem removeBg_alpha_binary (r : Raster) (x y : Nat) :
    ((removeBgRaster r).px x y).a =
      (if thresholdNum < lumNum (r.px x y) then 0 else 255) := by
  simp only [removeBgRaster, removeBgPixel]
  split <;> rfl

/-- C10: on an empty page list `generatePDF` performs no `addPage`, no
image draw and no footer text, raises nothing, and calls `save` exactly
once. -/
theorem generatePDF_empty (env : Env) (filename : String)
    (opts : GeneratePDFOptions) :
    generatePDF env [] filename opts = [DocEvent.save filename] ∧
    countAddPage (generatePDF env [] filename opts) = 0 ∧
    imageUrls (generatePDF env [] filename opts) = [] ∧
    textLabels (generatePDF env [] filename opts) = [] ∧
    countSave (generatePDF env [] filename opts) = 1 :=
  ⟨rfl, rfl, rfl, rfl, rfl⟩

/-- C8 (counterexample): the rich-content container's padding is a uniform
`48px` on every side (src/services/pdfService.ts:66), not `≈106px` on the
left/right/top — it is not even within `±20px` of 106 — and likewise not
`≈85px` at the bottom. -/
theorem renderPadding_counterexample :
    (renderHtmlCapture "x").container.paddingPx = 48 ∧
    ¬(86 ≤ (renderHtmlCapture "x").container.paddingPx ∧
        (renderHtmlCapture "x").container.paddingPx ≤ 126) ∧
    ¬(65 ≤ (renderHtmlCapture "x").container.paddingPx ∧
        (renderHtmlCapture "x").container.paddingPx ≤ 105) := by
  decide

/-- C8 (amended): for every HTML string the rasterizer lays content out in
a fixed-width `794px` virtual page with a `1123px` minimum height (content
may still grow taller), a uniform `48px` padding on all four sides, a white
background, and captures at `2×` magnification; the TEXT branch of the
pipeline renders exactly through this capture. -/
theorem renderHtmlCapture_spec (env : Env) (opts : GeneratePDFOptions)
    (html : String) :
    renderHtmlCapture html =
      ⟨2, true, ⟨794, 1123, 48, "white", html⟩⟩ ∧
    processPage env opts ⟨PageType.TEXT, html⟩ =
      env.capture (renderHtmlCapture html) :=
  ⟨rfl, rfl⟩

/-- C5: a zero-height raster reaching the fit step does NOT make
generation fail — no `InvalidRasterError` (or any error path) exists in
`generatePDF`; the division `width / height` is simply performed and a
degenerate placement is drawn, and the document is still saved.  (In
JavaScript `100 / 0` is `Infinity` and the wide branch yields a
`190 × 0` box; in this exact-rational model division by zero yields `0`
and the tall branch yields a `0 × 277` box — on either semantics the run
completes with a degenerate draw and one `save`, never an error.) -/
theorem generatePDF_zeroHeight_no_error :
    generatePDF envZeroH [⟨PageType.IMAGE, "u"⟩] "f" ⟨false, false⟩ =
      [DocEvent.drawImage "u" 105 10 0 277, DocEvent.save "f"] ∧
    countSave (generatePDF envZeroH [⟨PageType.IMAGE, "u"⟩] "f"
      ⟨false, false⟩) = 1 := by
  constructor
  · norm_num [generatePDF, runPages, emitPage, processPage, processImageForPDF,
      envZeroH, env0, fit, pageWidthMm, pageHeightMm, marginMm]
    rfl
  · rfl

theorem imageUrls_append (a b : List DocEvent) :
    imageUrls (a ++ b) = imageUrls a ++ imageUrls b :=
  List.filterMap_append a b _

theorem countAddPage_append (a b : List DocEvent) :
    countAddPage (a ++ b) = countAddPage a + countAddPage b :=
  List.countP_append _ a b

theorem textLabels_append (a b : List DocEvent) :
    textLabels (a ++ b) = textLabels a ++ textLabels b :=
  List.filterMap_append a b _

theorem countSave_append (a b : List DocEvent) :
    countSave (a ++ b) = countSave a + countSave b :=
  List.countP_append _ a b

theorem imageUrls_emitPage (env : Env) (opts : GeneratePDFOptions)
    (total i : Nat) (p : EditorPage) :
    imageUrls (emitPage env opts total i p) =
      (emittedUrl env opts p).toList := by
  unfold emitPage emittedUrl
  rw [imageUrls_append]
  by_cases h0 : 0 < i <;>
    by_cases hu : processPage env opts p = "" <;>
      by_cases hn : opts.includePageNumbers <;>
        simp [h0, hu, hn, imageUrls]

theorem countAddPage_emitPage (env : Env) (opts : GeneratePDFOptions)
    (total i : Nat) (p : EditorPage) :
    countAddPage (emitPage env opts total i p) = if 0 < i then 1 else 0 := by
  unfold emitPage
  rw [countAddPage_append]
  by_cases h0 : 0 < i <;>
    by_cases hu : processPage env opts p = "" <;>
      by_cases hn : opts.includePageNumbers <;>
        simp [h0, hu, hn, countAddPage]

theorem textLabels_emitPage (env : Env) (opts : GeneratePDFOptions)
    (total i : Nat) (p : EditorPage) :
    textLabels (emitPage env opts total i p) =
      if emittedUrl env opts p = none then []
      else if opts.includePageNumbers then [footerLabel i total] else [] := by
  unfold emitPage emittedUrl
  rw [textLabels_append]
  by_cases h0 : 0 < i <;>
    by_cases hu : processPage env opts p = "" <;>
      by_cases hn : opts.includePageNumbers <;>
        simp [h0, hu, hn, textLabels]

theorem countSave_emitPage (env : Env) (opts : GeneratePDFOptions)
    (total i : Nat) (p : EditorPage) :
    countSave (emitPage env opts total i p) = 0 := by
  unfold emitPage
  rw [countSave_append]
  by_cases h0 : 0 < i <;>
    by_cases hu : processPage env opts p = "" <;>
      by_cases hn : opts.includePageNumbers <;>
        simp [h0, hu, hn, countSave]

theorem imageUrls_runPages (env : Env) (opts : GeneratePDFOptions)
    (total : Nat) :
    ∀ (i : Nat) (ps : List EditorPage),
      imageUrls (runPages env opts total i ps) =
        ps.filterMap (emittedUrl env opts)
  | _, [] => rfl
  | i, p :: rest => by
    rw [runPages, imageUrls_append, imageUrls_emitPage,
      imageUrls_runPages env opts total (i + 1) rest]
    cases h : emittedUrl env opts p <;> simp [List.filterMap_cons, h]

theorem countAddPage_runPages_pos (env : Env) (opts : GeneratePDFOptions)
    (total : Nat) :
    ∀ (i : Nat) (ps : List EditorPage), 0 < i →
      countAddPage (runPages env opts total i ps) = ps.length
  | _, [], _ => rfl
  | i, p :: rest, hi => by
    rw [runPages, countAddPage_append, countAddPage_emitPage, if_pos hi,
      countAddPage_runPages_pos env opts total (i + 1) rest (Nat.succ_pos i)]
    simp [Nat.add_comm]

theorem countAddPage_runPages_zero (env : Env) (opts : GeneratePDFOptions)
    (total : Nat) (ps : List EditorPage) :
    countAddPage (runPages env opts total 0 ps) = ps.length - 1 := by
  cases ps with
  | nil => rfl
  | cons p rest =>
    rw [runPages, countAddPage_append, countAddPage_emitPage]
    simp [countAddPage_runPages_pos env opts total 1 rest Nat.one_pos]

theorem countSave_runPages (env : Env) (opts : GeneratePDFOptions)
    (total : Nat) :
    ∀ (i : Nat) (ps : List EditorPage),
      countSave (runPages env opts total i ps) = 0
  | _, [] => rfl
  | i, p :: rest => by
    rw [runPages, countSave_append, countSave_emitPage,
      countSave_runPages env opts total (i + 1) rest]

theorem textLabels_runPages (env : Env) (opts : GeneratePDFOptions)
    (total : Nat) (hn : opts.includePageNumbers = true) :
    ∀ (i : Nat) (ps : List EditorPage),
      textLabels (runPages env opts total i ps) =
        expectedLabels env opts total i ps
  | _, [] => rfl
  | i, p :: rest => by
    rw [runPages, textLabels_append, textLabels_emitPage,
      textLabels_runPages env opts total hn (i + 1) rest, expectedLabels, hn]
    cases h : emittedUrl env opts p <;> simp [h]

theorem textLabels_runPages_off (env : Env) (opts : GeneratePDFOptions)
    (total : Nat) (hn : opts.includePageNumbers = false) :
    ∀ (i : Nat) (ps : List EditorPage),
      textLabels (runPages env opts total i ps) = []
  | _, [] => rfl
  | i, p :: rest => by
    rw [runPages, textLabels_append, textLabels_emitPage,
      textLabels_runPages_off env opts total hn (i + 1) rest, hn]
    cases h : emittedUrl env opts p <;> simp [h]

/-- C4 (counterexample): emitted page records can be FEWER than input
pages — an IMAGE page whose content url is empty is skipped by
`if (!processedImageUrl) continue` (src/services/pdfService.ts:115), so one
input page yields zero drawn records. -/
theorem emittedCount_not_ge_input :
    ¬ ([(⟨PageType.IMAGE, ""⟩ : EditorPage)].length ≤
        (imageUrls (generatePDF env0 [⟨PageType.IMAGE, ""⟩] "f"
          ⟨false, false⟩)).length) := by
  decide

/-- C4 (amended): the drawn records are exactly the processed urls of the
input pages that survive the empty-url guard, in input page order — hence
their number is at most (not at least) the number of input pages, with
equality exactly when no page is skipped; no slicing step exists to add
records. -/
theorem generatePDF_emission_order (env : Env) (opts : GeneratePDFOptions)
    (filename : String) (pages : List EditorPage) :
    imageUrls (generatePDF env pages filename opts) =
      pages.filterMap (emittedUrl env opts) ∧
    (imageUrls (generatePDF env pages filename opts)).length ≤
      pages.length := by
  have h : imageUrls (generatePDF env pages filename opts) =
      pages.filterMap (emittedUrl env opts) := by
    rw [generatePDF, imageUrls_append,
      imageUrls_runPages env opts pages.length 0 pages]
    simp [imageUrls]
  exact ⟨h, h ▸ List.length_filterMap_le _ _⟩

/-- C6 (counterexample): `addPage` is driven by the INPUT page index, not
by emitted records — with a first drawable page and a second skipped
(empty-content) page, `addPage` runs once while only one record is
emitted, so it is not "once per emitted record except the first"
(which would be zero times). -/
theorem addPage_per_record_counterexample :
    ¬ (countAddPage (generatePDF env0
          [⟨PageType.IMAGE, "a"⟩, ⟨PageType.IMAGE, ""⟩] "f" ⟨true, false⟩) =
        (imageUrls (generatePDF env0
          [⟨PageType.IMAGE, "a"⟩, ⟨PageType.IMAGE, ""⟩] "f"
          ⟨true, false⟩)).length - 1) := by
  decide

/-- C6 (amended): `addPage` is invoked exactly once per INPUT page except
the first — `pages.length - 1` times, counting skipped pages too; with
page numbering off no footer text is drawn; with page numbering on each
drawn record gets the footer label `"Page (i+1) of total"` indexed by its
INPUT position `i` (so `N` is the running emitted count only when no page
is skipped). -/
theorem generatePDF_footer_addPage_spec (env : Env) (filename : String)
    (scan : Bool) (opts : GeneratePDFOptions) (pages : List EditorPage) :
    countAddPage (generatePDF env pages filename opts) = pages.length - 1 ∧
    textLabels (generatePDF env pages filename ⟨false, scan⟩) = [] ∧
    textLabels (generatePDF env pages filename ⟨true, scan⟩) =
      expectedLabels env ⟨true, scan⟩ pages.length 0 pages := by
  refine ⟨?_, ?_, ?_⟩
  · rw [generatePDF, countAddPage_append,
      countAddPage_runPages_zero env opts pages.length pages]
    simp [countAddPage]
  · rw [generatePDF, textLabels_append,
      textLabels_runPages_off env ⟨false, scan⟩ pages.length rfl 0 pages]
    simp [textLabels]
  · rw [generatePDF, textLabels_append,
      textLabels_runPages env ⟨true, scan⟩ pages.length rfl 0 pages]
    simp [textLabels]

/-- C7: when image decoding fails, the scan-cleaning path resolves with
the original unmodified reference (`img.onerror` → `resolve(url)`), the
whole document generation still completes — the original url is drawn and
the single `save` happens — while `removeBackground` instead rejects with
its load error. -/
theorem load_failure_diverges (env : Env) (url filename : String)
    (hload : env.load url = none) (hne : url ≠ "") :
    processImageForPDF env url true = url ∧
    removeBackground env url =
      Except.error "Failed to load image for processing" ∧
    imageUrls (generatePDF env [⟨PageType.IMAGE, url⟩] filename
      ⟨false, true⟩) = [url] ∧
    countSave (generatePDF env [⟨PageType.IMAGE, url⟩] filename
      ⟨false, true⟩) = 1 := by
  have hp : processImageForPDF env url true = url := by
    simp [processImageForPDF, hload]
  refine ⟨hp, ?_, ?_, ?_⟩
  · simp [removeBackground, hload]
  · rw [generatePDF, imageUrls_append,
      imageUrls_runPages env ⟨false, true⟩
        [(⟨PageType.IMAGE, url⟩ : EditorPage)].length 0 [⟨PageType.IMAGE, url⟩]]
    simp [imageUrls, emittedUrl, processPage, hp, hne]
  · rw [generatePDF, countSave_append,
      countSave_runPages env ⟨false, true⟩
        [(⟨PageType.IMAGE, url⟩ : EditorPage)].length 0 [⟨PageType.IMAGE, url⟩]]
    simp [countSave]

/-- C7 (witness): the divergence at a concrete failing loader. -/
theorem load_failure_diverges_witness :
    processImageForPDF env0 "u" true = "u" ∧
    removeBackground env0 "u" =
      Except.error "Failed to load image for processing" ∧
    imageUrls (generatePDF env0 [⟨PageType.IMAGE, "u"⟩] "f"
      ⟨false, true⟩) = ["u"] ∧
    countSave (generatePDF env0 [⟨PageType.IMAGE, "u"⟩] "f"
      ⟨false, true⟩) = 1 :=
  load_failure_diverges env0 "u" "f" rfl (by decide)

/-- C3: for positive raster dimensions and a positive writable area, the
fit step never exceeds the writable bounds, yields a positive height,
preserves the intrinsic aspect ratio exactly, and centers the box at
`x = margin + (maxW - width)/2`, `y = margin + (maxH - height)/2`, both at
least `margin`. -/
theorem fit_spec (imgW imgH pageW pageH margin : ℚ)
    (hW : 0 < imgW) (hH : 0 < imgH)
    (hmW : 0 < pageW - margin * 2) (hmH : 0 < pageH - margin * 2) :
    (fit imgW imgH pageW pageH margin).width ≤ pageW - margin * 2 ∧
    (fit imgW imgH pageW pageH margin).height ≤ pageH - margin * 2 ∧
    0 < (fit imgW imgH pageW pageH margin).height ∧
    (fit imgW imgH pageW pageH margin).width /
      (fit imgW imgH pageW pageH margin).height = imgW / imgH ∧
    (fit imgW imgH pageW pageH margin).x =
      margin +
        (pageW - margin * 2 - (fit imgW imgH pageW pageH margin).width) / 2 ∧
    (fit imgW imgH pageW pageH margin).y =
      margin +
        (pageH - margin * 2 - (fit imgW imgH pageW pageH margin).height) / 2 ∧
    margin ≤ (fit imgW imgH pageW pageH margin).x ∧
    margin ≤ (fit imgW imgH pageW pageH margin).y := by
  have hr : 0 < imgW / imgH := div_pos hW hH
  simp only [fit]
  by_cases h1 : (1:ℚ) < imgW / imgH
  · rw [if_pos h1]
    by_cases h2 : pageH - margin * 2 < (pageW - margin * 2) / (imgW / imgH)
    · rw [if_pos h2]
      have hw : (pageH - margin * 2) * (imgW / imgH) < pageW - margin * 2 :=
        (lt_div_iff₀ hr).mp h2
      refine ⟨le_of_lt hw, le_refl _, hmH, ?_, by ring, by ring,
        by dsimp; linarith, by dsimp; linarith⟩
      dsimp
      exact mul_div_cancel_left₀ _ (ne_of_gt hmH)
    · rw [if_neg h2]
      have hh : (pageW - margin * 2) / (imgW / imgH) ≤ pageH - margin * 2 :=
        not_lt.mp h2
      refine ⟨le_refl _, hh, div_pos hmW hr, ?_, by ring, by ring,
        by dsimp; linarith, by dsimp; linarith⟩
      dsimp
      rw [div_div_eq_mul_div]
      exact mul_div_cancel_left₀ _ (ne_of_gt hmW)
  · rw [if_neg h1]
    by_cases h3 : pageW - margin * 2 < (pageH - margin * 2) * (imgW / imgH)
    · rw [if_pos h3]
      have hh : (pageW - margin * 2) / (imgW / imgH) < pageH - margin * 2 :=
        (div_lt_iff₀ hr).mpr h3
      refine ⟨le_refl _, le_of_lt hh, div_pos hmW hr, ?_, by ring, by ring,
        by dsimp; linarith, by dsimp; linarith⟩
      dsimp
      rw [div_div_eq_mul_div]
      exact mul_div_cancel_left₀ _ (ne_of_gt hmW)
    · rw [if_neg h3]
      have hw : (pageH - margin * 2) * (imgW / imgH) ≤ pageW - margin * 2 :=
        not_lt.mp h3
      refine ⟨hw, le_refl _, hmH, ?_, by ring, by ring,
        by dsimp; linarith, by dsimp; linarith⟩
      dsimp
      exact mul_div_cancel_left₀ _ (ne_of_gt hmH)

/-- C3 (witness): the fit theorem at a 794×1123 raster on the default A4
page with 10 mm margins. -/
theorem fit_spec_witness :
    (0:ℚ) < 794 ∧ (0:ℚ) < 1123 ∧
    (0:ℚ) < 210 - 10 * 2 ∧ (0:ℚ) < 297 - 10 * 2 ∧
    ((fit 794 1123 210 297 10).width ≤ 210 - 10 * 2 ∧
     (fit 794 1123 210 297 10).height ≤ 297 - 10 * 2 ∧
     0 < (fit 794 1123 210 297 10).height ∧
     (fit 794 1123 210 297 10).width /
       (fit 794 1123 210 297 10).height = 794 / 1123 ∧
     (fit 794 1123 210 297 10).x =
       10 + (210 - 10 * 2 - (fit 794 1123 210 297 10).width) / 2 ∧
     (fit 794 1123 210 297 10).y =
       10 + (297 - 10 * 2 - (fit 794 1123 210 297 10).height) / 2 ∧
     10 ≤ (fit 794 1123 210 297 10).x ∧
     10 ≤ (fit 794 1123 210 297 10).y) :=
  ⟨by norm_num, by norm_num, by norm_num, by norm_num,
    fit_spec 794 1123 210 297 10 (by norm_num) (by norm_num)
      (by norm_num) (by norm_num)⟩

/-- C1: the spec-modelled slicer satisfies its whole contract whenever the
chunk height is positive (a zero chunk height would make
`ceil(H / chunkH)` a division by zero). -/
theorem sliceRaster_spec (r : Raster) (a : ℚ)
    (hc : 0 < chunkHeight r.width a) : SliceSpec r a := by
  set c := chunkHeight r.width a with hcdef
  constructor
  · intro h
    simp [sliceRaster, ← hcdef, h]
  · intro h
    have hle : ¬ (r.height ≤ c + 10) := not_le.mpr (by omega)
    have hlist : sliceRaster r a =
        (List.range ((r.height + c - 1) / c)).map (sliceChunk r c) := by
      simp [sliceRaster, ← hcdef, hle]
    refine ⟨hlist, ?_, fun i => ⟨rfl, rfl⟩, ?_, ?_⟩
    · rw [hlist]; simp
    · intro i x y hx hy
      simp [sliceChunk, hx, hy]
    · intro row hrow
      have hH1 : 1 ≤ r.height := by omega
      have hsplit : r.height + c - 1 = (r.height - 1) + c := by omega
      have hn : (r.height + c - 1) / c = (r.height - 1) / c + 1 := by
        rw [hsplit, Nat.add_div_right _ hc]
      have hidx : row / c < (r.height + c - 1) / c := by
        have h3 : row / c ≤ (r.height - 1) / c :=
          Nat.div_le_div_right (by omega)
        omega
      refine ⟨⟨row / c, row % c⟩,
        ⟨hidx, Nat.mod_lt _ hc, Nat.div_add_mod' row c⟩, ?_⟩
      rintro ⟨i, y⟩ ⟨hi, hy, hiy⟩
      simp only at hi hy hiy
      have hieq : i = row / c := by
        rw [← hiy, Nat.mul_comm i c, Nat.mul_add_div hc,
          Nat.div_eq_of_lt hy, Nat.add_zero]
      have hyeq : y = row % c := by
        rw [← hiy, Nat.mul_comm i c, Nat.mul_add_mod, Nat.mod_eq_of_lt hy]
      simp [hieq, hyeq]

/-- C1 (witness): the slicer contract at a concrete tall raster with
target aspect 1 (chunk height 2, ten chunks). -/
theorem sliceRaster_spec_witness :
    0 < chunkHeight longRaster.width 1 ∧ SliceSpec longRaster 1 :=
  ⟨by norm_num [chunkHeight, longRaster],
    sliceRaster_spec longRaster 1 (by norm_num [chunkHeight, longRaster])⟩
